import Mathlib

/-!
Verification of the spotify-api-endpoint relay (src/api/index.js).

The program is an Express app holding three module-level mutable
variables (access_token, refresh_token, token_expires_at) and a set of
HTTP handlers.  We embed it shallowly: the mutable triple becomes a
`TokenState` record threaded explicitly; each handler becomes a total
function from the current state, the current time (`Date.now()` in
milliseconds), the request data and the provider's responses to an HTTP
response, the new state, and counters of the outbound provider calls
issued.  JavaScript truthiness of the string-or-null values tested with
`!x` (null, undefined and the empty string are falsy) is modelled by
`truthy`; the comparison `Date.now() > token_expires_at` against a
null expiry (null coerces to 0) is modelled by `nowGtExpiry`.
-/

/-- The three module-level variables of index.js (lines 16-18):
`access_token`, `refresh_token`, `token_expires_at`.  `none` stands for
JavaScript `null`/`undefined`; times are milliseconds since the epoch. -/
structure TokenState where
  access_token : Option String
  refresh_token : Option String
  token_expires_at : Option Nat
deriving Repr, DecidableEq

/-- Initial state: all three variables are `null` (lines 16-18). -/
def initialState : TokenState := ⟨none, none, none⟩

/-- JavaScript truthiness of a string-or-null value: `!x` is true exactly
when `x` is null, undefined or the empty string. -/
def truthy : Option String → Bool
  | none => false
  | some s => s ≠ ""

/-- `Date.now() > token_expires_at` (line 73) with JavaScript coercion:
when `token_expires_at` is `null` it coerces to `0`. -/
def nowGtExpiry (now : Nat) : Option Nat → Bool
  | none => now > 0
  | some t => now > t

/-- The guard of line 73: `!access_token || Date.now() > token_expires_at`. -/
def needsRefresh (st : TokenState) (now : Nat) : Bool :=
  !truthy st.access_token || nowGtExpiry now st.token_expires_at

/-- The JSON body of a successful provider token response, as the fields
the program reads from `tokenRes.data`: `access_token`, `refresh_token`
(possibly absent) and `expires_in` (seconds). -/
structure TokenResponse where
  access_token : Option String
  refresh_token : Option String
  expires_in : Nat
deriving Repr, DecidableEq

/-- A provider call either succeeds with a `TokenResponse` or throws;
the error carries the string the handler reports as
`err.response?.data || err.message`. -/
abbrev TokenReply := Except String TokenResponse

/-- How `ensureAccessToken` returns: normally, by throwing
`Error('No refresh token available')` (line 74), or by the axios call
throwing (propagated to the caller). -/
inductive EnsureOutcome where
  | ok : EnsureOutcome
  | authError : EnsureOutcome
  | providerError : String → EnsureOutcome
deriving Repr, DecidableEq

/-- Result of running `ensureAccessToken`: the outcome, the token state
after the call, and how many provider token-refresh calls were issued. -/
structure EnsureResult where
  outcome : EnsureOutcome
  state : TokenState
  refreshCalls : Nat
deriving Repr, DecidableEq

/-- `ensureAccessToken` (lines 72-89).  If the access token is falsy or
`Date.now() > token_expires_at`, it requires a truthy refresh token
(throwing otherwise), issues one token-refresh call, and on success
overwrites `access_token`, conditionally `refresh_token`
(`if (tokenRes.data.refresh_token)`), and `token_expires_at`
(`Date.now() + expires_in * 1000`).  Otherwise it does nothing. -/
def ensureAccessToken (st : TokenState) (now : Nat) (provider : TokenReply) :
    EnsureResult :=
  if needsRefresh st now then
    if !truthy st.refresh_token then
      ⟨.authError, st, 0⟩
    else
      match provider with
      | .error e => ⟨.providerError e, st, 1⟩
      | .ok resp =>
          ⟨.ok,
           { access_token := resp.access_token
             refresh_token :=
               if truthy resp.refresh_token then resp.refresh_token
               else st.refresh_token
             token_expires_at := some (now + resp.expires_in * 1000) },
           1⟩
  else ⟨.ok, st, 0⟩

/-- The message of the error thrown at line 74. -/
def noRefreshMsg : String := "No refresh token available"

/-- The detail string a handler attaches for an `ensureAccessToken`
failure: `err.message` for the thrown auth error, `err.response?.data`
for a provider failure. -/
def ensureErrDetails : EnsureOutcome → Option String
  | .ok => none
  | .authError => some noRefreshMsg
  | .providerError e => some e

/-- HTTP response bodies produced by the handlers. -/
inductive Body where
  | text : String → Body
  | errJson : String → Option String → Body
  | msgJson : String → Body
  | statusJson : String → Body
  | snapshotJson : Body
  | rawJson : String → Body
deriving Repr, DecidableEq

/-- An HTTP response: status code and body. -/
structure Response where
  status : Nat
  body : Body
deriving Repr, DecidableEq

/-- Result of the `/callback` handler: the response, the token state
after it, and how many provider token calls were issued. -/
structure CallbackResult where
  response : Response
  state : TokenState
  tokenCalls : Nat
deriving Repr, DecidableEq

/-- The `/callback` handler (lines 47-69).  `!code` short-circuits with
400 before any provider call; otherwise one authorization-code token
call is issued; on success all three cache variables are overwritten
(`token_expires_at = Date.now() + expires_in * 1000`); on failure the
state is untouched and a 500 error is returned. -/
def callbackHandler (st : TokenState) (now : Nat) (code : Option String)
    (provider : TokenReply) : CallbackResult :=
  if !truthy code then
    ⟨⟨400, .text "No code provided"⟩, st, 0⟩
  else
    match provider with
    | .error e => ⟨⟨500, .errJson "Failed to get tokens" (some e)⟩, st, 1⟩
    | .ok resp =>
        ⟨⟨200, .text "Authentication successful! You can close this window."⟩,
         { access_token := resp.access_token
           refresh_token := resp.refresh_token
           token_expires_at := some (now + resp.expires_in * 1000) },
         1⟩

/-- The fields the program reads from a provider track object:
`id`, `name`, `artists` (list of objects with a `name`), `album.name`,
`duration_ms`, `external_urls.spotify`, `preview_url`, `uri`. -/
structure ProviderArtist where
  name : String
deriving Repr, DecidableEq

/-- The album object: only `album.name` is read (line 103). -/
structure ProviderAlbum where
  name : String
deriving Repr, DecidableEq

/-- A provider track object, restricted to the fields read at
lines 99-108 and 115-126. -/
structure ProviderTrack where
  id : String
  name : String
  artists : List ProviderArtist
  album : ProviderAlbum
  duration_ms : Nat
  external_urls_spotify : String
  preview_url : Option String
  uri : String
deriving Repr, DecidableEq

/-- The reshaped track returned inside `top_tracks` (lines 99-108). -/
structure TrackSummary where
  id : String
  name : String
  artists : String
  album : String
  duration_ms : Nat
  external_urls : String
  preview_url : Option String
  uri : String
deriving Repr, DecidableEq

/-- The projection applied to each element of `topTracksRes.data.items`
(lines 99-108): `artists` is `track.artists.map(a => a.name).join(', ')`. -/
def reshapeTrack (t : ProviderTrack) : TrackSummary :=
  { id := t.id
    name := t.name
    artists := String.intercalate ", " (t.artists.map ProviderArtist.name)
    album := t.album.name
    duration_ms := t.duration_ms
    external_urls := t.external_urls_spotify
    preview_url := t.preview_url
    uri := t.uri }

/-- The fields read from the currently-playing response
(lines 110-127): `data` may be empty (no body), `data.item` may be
absent, and `progress_ms` / `is_playing` accompany the item. -/
structure NowPlayingData where
  item : Option ProviderTrack
  progress_ms : Nat
  is_playing : Bool
deriving Repr, DecidableEq

/-- The reshaped `now_playing` object (lines 116-126). -/
structure NowPlaying where
  id : String
  name : String
  artists : String
  album : String
  duration_ms : Nat
  progress_ms : Nat
  is_playing : Bool
  external_urls : String
  uri : String
deriving Repr, DecidableEq

/-- Builds `now_playing` from `nowPlayingRes.data` (lines 113-127):
null unless `data && data.item`. -/
def reshapeNowPlaying (d : Option NowPlayingData) : Option NowPlaying :=
  match d with
  | none => none
  | some data =>
      match data.item with
      | none => none
      | some item =>
          some { id := item.id
                 name := item.name
                 artists := String.intercalate ", "
                   (item.artists.map ProviderArtist.name)
                 album := item.album.name
                 duration_ms := item.duration_ms
                 progress_ms := data.progress_ms
                 is_playing := data.is_playing
                 external_urls := item.external_urls_spotify
                 uri := item.uri }

/-- Result of a relay handler: the response, the token state after it,
the number of provider token-refresh calls, and the number of other
provider calls issued. -/
structure HandlerResult where
  response : Response
  state : TokenState
  refreshCalls : Nat
  apiCalls : Nat
deriving Repr, DecidableEq

/-- Shared shape of the five protected handlers: run
`ensureAccessToken`; a thrown failure is caught and mapped to a 500
error envelope with the handler's summary message. -/
def ensureFail (msg : String) (e : EnsureResult) : HandlerResult :=
  ⟨⟨500, .errJson msg (ensureErrDetails e.outcome)⟩, e.state, e.refreshCalls, 0⟩

/-- The `/spotify` handler (lines 92-136): ensure a valid token, fetch
top tracks then currently-playing, reshape both, answer 200.  Any
failure is caught and mapped to 500 `Failed to fetch data`.  The
provider read calls either succeed or throw with a detail string. -/
def spotifyHandler (st : TokenState) (now : Nat) (tokenP : TokenReply)
    (topP : Except String (List ProviderTrack))
    (npP : Except String (Option NowPlayingData)) : HandlerResult :=
  let e := ensureAccessToken st now tokenP
  match e.outcome with
  | .ok =>
      match topP with
      | .error d => ⟨⟨500, .errJson "Failed to fetch data" (some d)⟩, e.state, e.refreshCalls, 1⟩
      | .ok _tracks =>
          match npP with
          | .error d => ⟨⟨500, .errJson "Failed to fetch data" (some d)⟩, e.state, e.refreshCalls, 2⟩
          | .ok _np => ⟨⟨200, .snapshotJson⟩, e.state, e.refreshCalls, 2⟩
  | _ => ensureFail "Failed to fetch data" e

/-- The reshaped 200 body of `/spotify` (lines 128-132): the projected
top tracks, the optional `now_playing`, and the capture instant. -/
def spotifySnapshot (tracks : List ProviderTrack) (np : Option NowPlayingData)
    (now : Nat) : List TrackSummary × Option NowPlaying × Nat :=
  (tracks.map reshapeTrack, reshapeNowPlaying np, now)

/-- The `/spotify/pause` handler (lines 139-149). -/
def pauseHandler (st : TokenState) (now : Nat) (tokenP : TokenReply)
    (pauseP : Except String Unit) : HandlerResult :=
  let e := ensureAccessToken st now tokenP
  match e.outcome with
  | .ok =>
      match pauseP with
      | .error d => ⟨⟨500, .errJson "Failed to pause playback" (some d)⟩, e.state, e.refreshCalls, 1⟩
      | .ok _ => ⟨⟨200, .msgJson "Playback paused successfully"⟩, e.state, e.refreshCalls, 1⟩
  | _ => ensureFail "Failed to pause playback" e

/-- The `/spotify/resume` handler (lines 151-161). -/
def resumeHandler (st : TokenState) (now : Nat) (tokenP : TokenReply)
    (resumeP : Except String Unit) : HandlerResult :=
  let e := ensureAccessToken st now tokenP
  match e.outcome with
  | .ok =>
      match resumeP with
      | .error d => ⟨⟨500, .errJson "Failed to resume playback" (some d)⟩, e.state, e.refreshCalls, 1⟩
      | .ok _ => ⟨⟨200, .msgJson "Playback resumed successfully"⟩, e.state, e.refreshCalls, 1⟩
  | _ => ensureFail "Failed to resume playback" e

/-- The `/spotify/play` handler (lines 163-175).  Note the order in the
source: `ensureAccessToken` is awaited first (line 165); only then is
`uri` destructured from the body and tested (lines 166-167). -/
def playHandler (st : TokenState) (now : Nat) (uri : Option String)
    (tokenP : TokenReply) (playP : Except String Unit) : HandlerResult :=
  let e := ensureAccessToken st now tokenP
  match e.outcome with
  | .ok =>
      if !truthy uri then
        ⟨⟨400, .errJson "Missing uri in request body" none⟩, e.state, e.refreshCalls, 0⟩
      else
        match playP with
        | .error d => ⟨⟨500, .errJson "Failed to start playback" (some d)⟩, e.state, e.refreshCalls, 1⟩
        | .ok _ => ⟨⟨200, .msgJson "Playback started successfully"⟩, e.state, e.refreshCalls, 1⟩
  | _ => ensureFail "Failed to start playback" e

/-- The `/spotify/devices` handler (lines 178-188): raw passthrough of
the provider device payload. -/
def devicesHandler (st : TokenState) (now : Nat) (tokenP : TokenReply)
    (devP : Except String String) : HandlerResult :=
  let e := ensureAccessToken st now tokenP
  match e.outcome with
  | .ok =>
      match devP with
      | .error d => ⟨⟨500, .errJson "Failed to get devices" (some d)⟩, e.state, e.refreshCalls, 1⟩
      | .ok payload => ⟨⟨200, .rawJson payload⟩, e.state, e.refreshCalls, 1⟩
  | _ => ensureFail "Failed to get devices" e

/-- HTTP methods used by the app. -/
inductive Method where
  | get : Method
  | post : Method
deriving Repr, DecidableEq

/-- The routes registered on `app`, in source order (lines 35, 47, 92,
139, 151, 163, 178, 190).  This is the app's entire HTTP surface. -/
def routes : List (Method × String) :=
  [(.get, "/auth"), (.get, "/callback"), (.get, "/spotify"),
   (.post, "/spotify/pause"), (.post, "/spotify/resume"),
   (.post, "/spotify/play"), (.get, "/spotify/devices"), (.get, "/")]

/-- Express dispatch over the registered routes: the first registration
matching the method and path, if any. -/
def routeFor (m : Method) (p : String) : Option (Method × String) :=
  routes.find? (fun r => r.1 == m && r.2 == p)

/-- The response of `GET /` (lines 190-192). -/
def rootResponse : Response := ⟨200, .statusJson "API is running"⟩

/-- An operation that mutates the token cache: the code exchange of
`/callback` or an `ensureAccessToken` run (every protected handler
mutates the cache only through the latter).  Each carries its `Date.now()`
instant and the provider's reply. -/
inductive Event where
  | exchange : Nat → Option String → TokenReply → Event
  | ensure : Nat → TokenReply → Event

/-- The token cache after one mutating operation. -/
def stepState (st : TokenState) : Event → TokenState
  | .exchange now code p => (callbackHandler st now code p).state
  | .ensure now p => (ensureAccessToken st now p).state

/-- The spec's TokenState invariant: if access_token is present then
expires_at is present. -/
def tokenInvariant (st : TokenState) : Prop :=
  st.access_token.isSome → st.token_expires_at.isSome

/-- The line-73 guard holds exactly when the access token is falsy, or
the expiry is set and strictly in the past, or the expiry is still null
and the clock is positive. -/
theorem needsRefresh_eq_true_iff (st : TokenState) (now : Nat) :
    needsRefresh st now = true ↔
      truthy st.access_token = false ∨
      (∃ e, st.token_expires_at = some e ∧ e < now) ∨
      (st.token_expires_at = none ∧ 0 < now) := by
  unfold needsRefresh
  cases h : st.token_expires_at with
  | none => simp [nowGtExpiry, h]
  | some e => simp [nowGtExpiry, h]

/-- After `/callback`, the cache is either untouched or its expiry was
just set to an absolute instant. -/
theorem callback_state_cases (st : TokenState) (now : Nat)
    (code : Option String) (p : TokenReply) :
    (callbackHandler st now code p).state = st ∨
    ∃ t, (callbackHandler st now code p).state.token_expires_at = some t := by
  unfold callbackHandler
  split
  · exact Or.inl rfl
  · cases p with
    | error e => exact Or.inl rfl
    | ok resp => exact Or.inr ⟨now + resp.expires_in * 1000, rfl⟩

/-- After `ensureAccessToken`, the cache is either untouched or its
expiry was just set to an absolute instant. -/
theorem ensure_state_cases (st : TokenState) (now : Nat) (p : TokenReply) :
    (ensureAccessToken st now p).state = st ∨
    ∃ t, (ensureAccessToken st now p).state.token_expires_at = some t := by
  unfold ensureAccessToken
  split
  · split
    · exact Or.inl rfl
    · cases p with
      | error e => exact Or.inl rfl
      | ok resp => exact Or.inr ⟨now + resp.expires_in * 1000, rfl⟩
  · exact Or.inl rfl

/-- C2 counterexample: the app registers no route for GET /ping; the
claimed endpoint does not exist in the HTTP surface of index.js. -/
theorem ping_not_registered : (Method.get, "/ping") ∉ routes := by decide

/-- C2 (amended): a GET /ping request matches none of the registered
routes, so the app never produces the claimed 200 body for it (an
Express app answers such a request with its default 404). -/
theorem routeFor_ping_eq_none : routeFor Method.get "/ping" = none := by decide

/-- C3 counterexample: with a non-empty access token, a refresh token,
and expires_at = 100, at the instant now = 100 (current time equal to
expires_at) `ensureAccessToken` performs no refresh: the guard at line
73 uses strict greater-than, so the cache is untouched and no provider
call is issued, contradicting the claim that a refresh is performed. -/
theorem ensure_at_expiry_no_refresh :
    ensureAccessToken ⟨some "tok", some "r", some 100⟩ 100
        (.ok ⟨some "fresh", none, 3600⟩) =
      ⟨.ok, ⟨some "tok", some "r", some 100⟩, 0⟩ := by decide

/-- C3 (amended): when a refresh token is stored, `ensureAccessToken`
issues a refresh-token grant exactly when the access token is falsy, or
the current time is STRICTLY greater than expires_at (with a null
expiry coerced to 0); at the instant the current time equals expires_at
no refresh is performed. -/
theorem ensure_refreshes_iff (st : TokenState) (now : Nat) (p : TokenReply)
    (hrt : truthy st.refresh_token = true) :
    0 < (ensureAccessToken st now p).refreshCalls ↔
      truthy st.access_token = false ∨
      (∃ e, st.token_expires_at = some e ∧ e < now) ∨
      (st.token_expires_at = none ∧ 0 < now) := by
  rw [← needsRefresh_eq_true_iff]
  unfold ensureAccessToken
  cases h : needsRefresh st now with
  | false => simp [h]
  | true =>
      simp only [h, if_true, hrt, Bool.not_true, Bool.false_eq_true, if_false]
      cases p <;> simp

/-- Witness for C3 (amended) at a concrete input: with no access token
and a stored refresh token, a refresh call is issued. -/
theorem ensure_refreshes_iff_witness :
    0 < (ensureAccessToken ⟨none, some "r", none⟩ 0
          (.ok ⟨some "a", none, 1⟩)).refreshCalls :=
  (ensure_refreshes_iff ⟨none, some "r", none⟩ 0 (.ok ⟨some "a", none, 1⟩)
    (by decide)).mpr (Or.inl (by decide))

/-- C9: if the provider token call fails during the `/callback` code
exchange or during the refresh inside `ensureAccessToken`, the token
cache triple is exactly as it was before the operation began. -/
theorem provider_failure_state_unchanged (st : TokenState) (now : Nat)
    (code : Option String) (e : String) :
    (callbackHandler st now code (.error e)).state = st ∧
    (ensureAccessToken st now (.error e)).state = st := by
  constructor
  · unfold callbackHandler
    split
    · rfl
    · rfl
  · unfold ensureAccessToken
    split
    · split
      · rfl
      · rfl
    · rfl

/-- C10: when the access token is present (non-empty) and the current
time is at or before the stored expires_at, `ensureAccessToken` makes
no provider call and leaves all three cache fields unchanged. -/
theorem valid_token_no_call (st : TokenState) (now e : Nat) (p : TokenReply)
    (hacc : truthy st.access_token = true)
    (hexp : st.token_expires_at = some e) (hle : now ≤ e) :
    ensureAccessToken st now p = ⟨.ok, st, 0⟩ := by
  have hneed : needsRefresh st now = false := by
    unfold needsRefresh
    rw [hexp]
    simp [nowGtExpiry, hacc]
    omega
  unfold ensureAccessToken
  simp [hneed]

/-- Witness for C10 at a concrete input: a live token at the very
instant of its expiry is kept as is. -/
theorem valid_token_no_call_witness :
    ensureAccessToken ⟨some "tok", some "r", some 100⟩ 100 (.error "down") =
      ⟨.ok, ⟨some "tok", some "r", some 100⟩, 0⟩ :=
  valid_token_no_call ⟨some "tok", some "r", some 100⟩ 100 100 (.error "down")
    (by decide) rfl (by decide)

/-- C8: reshaping the concrete provider track from the spec yields
exactly the claimed summary, and in general the artists list is joined
into one comma-separated display string. -/
theorem reshapeTrack_spec :
    reshapeTrack ⟨"t1", "Song", [⟨"A"⟩, ⟨"B"⟩], ⟨"Alb"⟩, 1000, "url",
        none, "spotify:track:t1"⟩ =
      ⟨"t1", "Song", "A, B", "Alb", 1000, "url", none, "spotify:track:t1"⟩ ∧
    ∀ t : ProviderTrack, (reshapeTrack t).artists =
      String.intercalate ", " (t.artists.map ProviderArtist.name) :=
  ⟨by decide, fun t => rfl⟩

/-- C1 counterexample: with an empty cache holding only a refresh token,
a POST /spotify/play request without a uri does return 400, but a
provider token-refresh call was issued first (line 165 awaits
`ensureAccessToken` before the body is inspected), contradicting the
claim that no provider call is made. -/
theorem play_missing_uri_refresh_called :
    (playHandler ⟨none, some "r", none⟩ 5 none
        (.ok ⟨some "tok", none, 3600⟩) (.ok ())).response.status = 400 ∧
    (playHandler ⟨none, some "r", none⟩ 5 none
        (.ok ⟨some "tok", none, 3600⟩) (.ok ())).refreshCalls = 1 := by
  constructor <;> rfl

/-- C1 (amended): for a POST /spotify/play request whose body lacks a
truthy uri, no playback call is ever issued; if the token-ensure step
succeeds the handler returns the 400 missing-uri response, and if the
token-ensure step fails (which may happen before the body is looked at,
and may itself have issued a token-refresh call) the handler returns a
500 error response instead. -/
theorem play_missing_uri (st : TokenState) (now : Nat) (uri : Option String)
    (tokenP : TokenReply) (playP : Except String Unit)
    (huri : truthy uri = false) :
    (playHandler st now uri tokenP playP).apiCalls = 0 ∧
    ((ensureAccessToken st now tokenP).outcome = .ok →
      (playHandler st now uri tokenP playP).response =
        ⟨400, .errJson "Missing uri in request body" none⟩) ∧
    ((ensureAccessToken st now tokenP).outcome ≠ .ok →
      (playHandler st now uri tokenP playP).response.status = 500) := by
  rcases he : ensureAccessToken st now tokenP with ⟨o, s, c⟩
  cases o <;> simp [playHandler, he, huri, ensureFail]

/-- Witness for C1 (amended) at a concrete input: live token, no uri. -/
theorem play_missing_uri_witness :
    (playHandler ⟨some "tok", some "r", some 100⟩ 50 none
        (.ok ⟨some "a", none, 1⟩) (.ok ())).apiCalls = 0 :=
  (play_missing_uri ⟨some "tok", some "r", some 100⟩ 50 none
    (.ok ⟨some "a", none, 1⟩) (.ok ()) (by decide)).1

/-- C4: in any state where the line-73 guard fires (access token falsy
or past expiry) and no refresh token is stored, every protected handler
catches the thrown auth error and answers with its 500 JSON error
envelope carrying the `No refresh token available` detail — an error
response, never a crash (the handlers are total functions here). -/
theorem protected_no_usable_token (st : TokenState) (now : Nat)
    (hneed : needsRefresh st now = true)
    (hrt : truthy st.refresh_token = false)
    (tokenP : TokenReply)
    (topP : Except String (List ProviderTrack))
    (npP : Except String (Option NowPlayingData))
    (pauseP resumeP playP : Except String Unit)
    (uri : Option String) (devP : Except String String) :
    (spotifyHandler st now tokenP topP npP).response =
      ⟨500, .errJson "Failed to fetch data" (some noRefreshMsg)⟩ ∧
    (pauseHandler st now tokenP pauseP).response =
      ⟨500, .errJson "Failed to pause playback" (some noRefreshMsg)⟩ ∧
    (resumeHandler st now tokenP resumeP).response =
      ⟨500, .errJson "Failed to resume playback" (some noRefreshMsg)⟩ ∧
    (playHandler st now uri tokenP playP).response =
      ⟨500, .errJson "Failed to start playback" (some noRefreshMsg)⟩ ∧
    (devicesHandler st now tokenP devP).response =
      ⟨500, .errJson "Failed to get devices" (some noRefreshMsg)⟩ := by
  have he : ensureAccessToken st now tokenP = ⟨.authError, st, 0⟩ := by
    unfold ensureAccessToken
    simp [hneed, hrt]
  refine ⟨?_, ?_, ?_, ?_, ?_⟩ <;>
    simp [spotifyHandler, pauseHandler, resumeHandler, playHandler,
      devicesHandler, he, ensureFail, ensureErrDetails]

/-- Witness for C4 at a concrete input: the fresh initial state has no
tokens at all. -/
theorem protected_no_usable_token_witness :
    (spotifyHandler initialState 1 (.error "x") (.ok []) (.ok none)).response =
      ⟨500, .errJson "Failed to fetch data" (some noRefreshMsg)⟩ :=
  (protected_no_usable_token initialState 1 (by decide) (by decide)
    (.error "x") (.ok []) (.ok none) (.ok ()) (.ok ()) (.ok ())
    none (.error "y")).1

/-- C5: from a cache whose expiry is strictly past and whose refresh
token is stored, a successful refresh with a positive reported lifetime
and a non-empty access token leaves the cache with a future expiry and
a non-empty access token. -/
theorem refresh_from_expired_success (st : TokenState) (now e : Nat)
    (resp : TokenResponse)
    (hexp : st.token_expires_at = some e) (hpast : e < now)
    (hrt : truthy st.refresh_token = true)
    (hlife : 0 < resp.expires_in)
    (htok : truthy resp.access_token = true) :
    truthy (ensureAccessToken st now (.ok resp)).state.access_token = true ∧
    ∃ e2, (ensureAccessToken st now (.ok resp)).state.token_expires_at = some e2 ∧
      now < e2 := by
  have hneed : needsRefresh st now = true := by
    rw [needsRefresh_eq_true_iff]
    exact Or.inr (Or.inl ⟨e, hexp, hpast⟩)
  unfold ensureAccessToken
  simp [hneed, hrt, htok]
  omega

/-- Witness for C5 at a concrete input. -/
theorem refresh_from_expired_success_witness :
    truthy (ensureAccessToken ⟨some "old", some "r", some 10⟩ 20
        (.ok ⟨some "new", some "r2", 60⟩)).state.access_token = true ∧
    ∃ e2, (ensureAccessToken ⟨some "old", some "r", some 10⟩ 20
        (.ok ⟨some "new", some "r2", 60⟩)).state.token_expires_at = some e2 ∧
      20 < e2 :=
  refresh_from_expired_success ⟨some "old", some "r", some 10⟩ 20 10
    ⟨some "new", some "r2", 60⟩ rfl (by decide) (by decide) (by decide)
    (by decide)

/-- C6: on a successful refresh, the cache's access token and expiry
are overwritten, and the refresh token is overwritten exactly when the
provider's response carries a (truthy) new one; a response without one
leaves the stored refresh token unchanged. -/
theorem refresh_success_overwrites (st : TokenState) (now : Nat)
    (resp : TokenResponse)
    (hneed : needsRefresh st now = true)
    (hrt : truthy st.refresh_token = true) :
    (ensureAccessToken st now (.ok resp)).state.access_token =
      resp.access_token ∧
    (ensureAccessToken st now (.ok resp)).state.token_expires_at =
      some (now + resp.expires_in * 1000) ∧
    (truthy resp.refresh_token = true →
      (ensureAccessToken st now (.ok resp)).state.refresh_token =
        resp.refresh_token) ∧
    (truthy resp.refresh_token = false →
      (ensureAccessToken st now (.ok resp)).state.refresh_token =
        st.refresh_token) := by
  unfold ensureAccessToken
  simp [hneed, hrt]
  refine ⟨?_, ?_⟩ <;> intro h <;> simp [h]

/-- Witness for C6 at a concrete input: the provider returned no new
refresh token; the stored one survives. -/
theorem refresh_success_overwrites_witness :
    (ensureAccessToken ⟨none, some "r", none⟩ 7
        (.ok ⟨some "a", none, 2⟩)).state.refresh_token = some "r" :=
  (refresh_success_overwrites ⟨none, some "r", none⟩ 7 ⟨some "a", none, 2⟩
    (by decide) (by decide)).2.2.2 (by decide)

/-- C7: the invariant `access_token present implies expires_at present`
holds in the initial state, is preserved by both cache-mutating
operations (code exchange and ensureAccessToken) under every provider
reply, and hence holds after every sequence of such operations. -/
theorem tokenInvariant_holds :
    tokenInvariant initialState ∧
    (∀ (st : TokenState) (ev : Event), tokenInvariant st →
      tokenInvariant (stepState st ev)) ∧
    ∀ evs : List Event, tokenInvariant (List.foldl stepState initialState evs) := by
  have hinit : tokenInvariant initialState := by
    intro h
    simp [initialState] at h
  have hstep : ∀ (st : TokenState) (ev : Event), tokenInvariant st →
      tokenInvariant (stepState st ev) := by
    intro st ev h
    cases ev with
    | exchange now code p =>
        rcases callback_state_cases st now code p with hc | ⟨t, ht⟩
        · show tokenInvariant (callbackHandler st now code p).state
          rw [hc]
          exact h
        · intro _
          simp [stepState, ht]
    | ensure now p =>
        rcases ensure_state_cases st now p with hc | ⟨t, ht⟩
        · show tokenInvariant (ensureAccessToken st now p).state
          rw [hc]
          exact h
        · intro _
          simp [stepState, ht]
  have hall : ∀ (evs : List Event) (st : TokenState), tokenInvariant st →
      tokenInvariant (List.foldl stepState st evs) := by
    intro evs
    induction evs with
    | nil => intro st h; exact h
    | cons ev rest ih => intro st h; exact ih _ (hstep st ev h)
  exact ⟨hinit, hstep, fun evs => hall evs initialState hinit⟩

/-- Witness for C7 at a concrete input: one failed refresh attempt from
the initial state keeps the invariant. -/
theorem tokenInvariant_holds_witness :
    tokenInvariant (stepState initialState (Event.ensure 5 (Except.error "x"))) :=
  tokenInvariant_holds.2.1 initialState (Event.ensure 5 (Except.error "x"))
    (by intro h; simp [initialState] at h)
